import Mathlib

/-!
Shallow embedding of the work/rest cycle coordinator from `main.py` and
`config.py` of the "observer" repository.

The coordinator owns a five-valued cycle state, four elapsed-time counters
(modelled as rationals, since the Python code accumulates fractional
wall-clock deltas into them), an inactivity flag and the active `Config`.
The four entry points are

  * `onActivity`   — `Observer._on_activity`
  * `onInactivity` — `Observer._on_inactivity`
  * `tick`         — one iteration of the locked body of `Observer._main_loop`
  * `applyConfig`  — `Observer._save_config` (its state reset plus
                     `Config.update`; file persistence and the best-effort
                     delayed activity check are external side effects)

`tick` returns the successor state together with the list of notification
requests emitted on that tick, so that "exactly one notification" claims
are about the returned list.
-/

/-- CycleState: the five state constants of `Observer`
(`STATE_IDLE`, `STATE_WORKING`, `STATE_WORK_PAUSED`, `STATE_WAIT_REST`,
`STATE_RESTING` in `main.py`). -/
inductive CycleState where
  | idle
  | working
  | paused
  | wait_rest
  | resting
deriving Repr, DecidableEq

/-- Config: the dataclass of `config.py`, with its default field values.
Durations are minutes (Python ints, here `Int`); messages are free text. -/
structure Config where
  work_minutes : Int := 25
  rest_minutes : Int := 5
  auto_rest_minutes : Int := 5
  msg_rest : String := "Han pasado 25 minutos. Levántate y descansa la vista."
  msg_work : String := "Descanso terminado. Puedes volver a trabajar."
deriving Repr, DecidableEq

/-- Input to `Config.update`: the `new_values` dict. A `none` field is an
absent dict key. Numeric fields are integer-valued (the claim under
verification restricts to such inputs; Python applies `int(...)` first). -/
structure ConfigUpdate where
  work_minutes : Option Int := none
  rest_minutes : Option Int := none
  auto_rest_minutes : Option Int := none
  msg_rest : Option String := none
  msg_work : Option String := none
deriving Repr, DecidableEq

/-- Config.update from `config.py`: each supplied numeric field is clamped
to a minimum of 1 via `max(1, int(v))`; supplied messages replace the old
ones; absent keys leave the field unchanged. -/
def Config.update (c : Config) (nv : ConfigUpdate) : Config :=
  { work_minutes :=
      match nv.work_minutes with
      | some v => max 1 v
      | none => c.work_minutes
    rest_minutes :=
      match nv.rest_minutes with
      | some v => max 1 v
      | none => c.rest_minutes
    auto_rest_minutes :=
      match nv.auto_rest_minutes with
      | some v => max 1 v
      | none => c.auto_rest_minutes
    msg_rest :=
      match nv.msg_rest with
      | some m => m
      | none => c.msg_rest
    msg_work :=
      match nv.msg_work with
      | some m => m
      | none => c.msg_work }

/-- NotifKind: which `NotificationManager` method a transition calls
(`notify_rest`, `notify_auto_rest`, `notify_work`). -/
inductive NotifKind where
  | rest
  | auto_rest
  | work
deriving Repr, DecidableEq

/-- Notification: one notification request as emitted by the main loop. -/
structure Notification where
  kind : NotifKind
  title : String
  message : String
deriving Repr, DecidableEq

/-- autoRestMessage: the hard-coded message of the auto-rest notification
in `Observer._main_loop` (independent of the active `Config`). -/
def autoRestMessage : String :=
  "Has estado inactivo. Iniciando descanso automático."

/-- Observer: the mutable coordinator aggregate of `Observer.__init__`
(cycle state, the four elapsed counters, the inactivity flag, and the
active config). -/
structure Observer where
  config : Config
  state : CycleState
  work_elapsed : ℚ
  rest_elapsed : ℚ
  pause_elapsed : ℚ
  rest_inactivity_elapsed : ℚ
  is_currently_inactive : Bool
deriving Repr, DecidableEq

/-- Observer.init: the startup state built by `Observer.__init__`
(default config, `idle`, all counters zero, active). -/
def Observer.init : Observer :=
  { config := {}
    state := CycleState.idle
    work_elapsed := 0
    rest_elapsed := 0
    pause_elapsed := 0
    rest_inactivity_elapsed := 0
    is_currently_inactive := false }

/-- onActivity: `Observer._on_activity`. Always clears the inactivity flag
and `rest_inactivity_elapsed`; then dispatches on the current state. -/
def onActivity (s : Observer) : Observer :=
  let s0 := { s with is_currently_inactive := false, rest_inactivity_elapsed := 0 }
  match s0.state with
  | CycleState.idle =>
      { s0 with state := CycleState.working, work_elapsed := 0 }
  | CycleState.paused =>
      { s0 with state := CycleState.working, pause_elapsed := 0 }
  | CycleState.wait_rest =>
      { s0 with state := CycleState.working, work_elapsed := 0 }
  | CycleState.resting =>
      { s0 with state := CycleState.working, work_elapsed := 0,
                rest_elapsed := 0, rest_inactivity_elapsed := 0 }
  | CycleState.working => s0

/-- onInactivity: `Observer._on_inactivity`. Always sets the inactivity
flag; `working` pauses, `wait_rest` starts the rest. -/
def onInactivity (s : Observer) : Observer :=
  let s0 := { s with is_currently_inactive := true }
  match s0.state with
  | CycleState.working =>
      { s0 with state := CycleState.paused, pause_elapsed := 0 }
  | CycleState.wait_rest =>
      { s0 with state := CycleState.resting, rest_elapsed := 0,
                rest_inactivity_elapsed := 0 }
  | _ => s0

/-- tick: one iteration of the locked body of `Observer._main_loop`, with
`delta` the measured wall-clock time since the previous tick. Returns the
successor state together with the notifications emitted on this tick. -/
def tick (s : Observer) (delta : ℚ) : Observer × List Notification :=
  match s.state with
  | CycleState.working =>
      let we := s.work_elapsed + delta
      let work_target : ℚ := s.config.work_minutes * 60
      if work_target ≤ we then
        ({ s with state := CycleState.wait_rest, work_elapsed := 0 },
         [{ kind := NotifKind.rest, title := "¡Hora de descansar!",
            message := s.config.msg_rest }])
      else
        ({ s with work_elapsed := we }, [])
  | CycleState.paused =>
      let pe := s.pause_elapsed + delta
      let auto_rest_threshold : ℚ := s.config.auto_rest_minutes * 60
      if auto_rest_threshold ≤ pe then
        ({ s with state := CycleState.resting, work_elapsed := 0,
                  pause_elapsed := 0, rest_elapsed := 0 },
         [{ kind := NotifKind.auto_rest, title := "Descanso automático",
            message := autoRestMessage }])
      else
        ({ s with pause_elapsed := pe }, [])
  | CycleState.resting =>
      let re := s.rest_elapsed + delta
      let ri := if s.is_currently_inactive
                then s.rest_inactivity_elapsed + delta
                else s.rest_inactivity_elapsed
      let rest_target : ℚ := s.config.rest_minutes * 60
      if rest_target ≤ re then
        ({ s with state := CycleState.idle, work_elapsed := 0,
                  rest_elapsed := 0, rest_inactivity_elapsed := 0 },
         [{ kind := NotifKind.work, title := "¡Descanso terminado!",
            message := s.config.msg_work }])
      else
        ({ s with rest_elapsed := re, rest_inactivity_elapsed := ri }, [])
  | _ => (s, [])

/-- applyConfig: `Observer._save_config` — updates the config via
`Config.update` and resets the whole coordinator state to `idle` with all
counters zero and the inactivity flag cleared. (File persistence and the
best-effort delayed activity probe are external side effects.) -/
def applyConfig (s : Observer) (nv : ConfigUpdate) : Observer :=
  { config := s.config.update nv
    state := CycleState.idle
    work_elapsed := 0
    rest_elapsed := 0
    pause_elapsed := 0
    rest_inactivity_elapsed := 0
    is_currently_inactive := false }

/-- Snapshot: the dict returned by `Observer._get_state_info`. -/
structure Snapshot where
  state : CycleState
  work_elapsed : ℚ
  work_total : ℚ
  rest_elapsed : ℚ
  rest_total : ℚ
deriving Repr, DecidableEq

/-- snapshot: `Observer._get_state_info` — a read-only projection of the
coordinator state and config. -/
def snapshot (s : Observer) : Snapshot :=
  { state := s.state
    work_elapsed := s.work_elapsed
    work_total := s.config.work_minutes * 60
    rest_elapsed := s.rest_elapsed
    rest_total := s.config.rest_minutes * 60 }

/-- Op: one invocation of one of the four coordinator entry points. -/
inductive Op where
  | activity
  | inactivity
  | config (nv : ConfigUpdate)
  | tickOp (delta : ℚ)
deriving Repr, DecidableEq

/-- Op.valid: tick deltas are non-negative (measured wall-clock time);
the other operations carry no constraint. -/
def Op.valid : Op → Prop
  | Op.tickOp d => 0 ≤ d
  | _ => True

instance : DecidablePred Op.valid := fun o => by
  cases o <;> simp only [Op.valid] <;> infer_instance

/-- Op.apply: execute one entry point on a coordinator state (dropping the
emitted notifications, which do not feed back into the state). -/
def Op.apply (s : Observer) : Op → Observer
  | Op.activity => onActivity s
  | Op.inactivity => onInactivity s
  | Op.config nv => applyConfig s nv
  | Op.tickOp d => (tick s d).1

/-- run: execute a sequence of operations from the startup state. -/
def run (ops : List Op) : Observer :=
  ops.foldl Op.apply Observer.init

/-! Concrete coordinator states used by witnesses. -/

/-- wkState: a working state 1 second short of the default 25-minute target. -/
def wkState : Observer :=
  { Observer.init with state := CycleState.working, work_elapsed := 1499 }

/-- wrState: a wait_rest state with non-trivial counters and flag. -/
def wrState : Observer :=
  { Observer.init with
      state := CycleState.wait_rest
      work_elapsed := 7
      rest_elapsed := 3
      pause_elapsed := 5
      rest_inactivity_elapsed := 2
      is_currently_inactive := true }

/-- C1: from `working`, `tick delta` adds `delta` to `work_elapsed`; when the
result reaches or exceeds `work_minutes * 60` the state becomes `wait_rest`
with `work_elapsed` reset to 0 and exactly one rest notification carrying
`msg_rest` is emitted; otherwise no notification is emitted and only
`work_elapsed` changes. -/
theorem tick_working_spec (s : Observer) (d : ℚ)
    (hs : s.state = CycleState.working) (hd : 0 ≤ d) :
    ((s.config.work_minutes * 60 : ℚ) ≤ s.work_elapsed + d →
      tick s d = ({ s with state := CycleState.wait_rest, work_elapsed := 0 },
        [{ kind := NotifKind.rest, title := "¡Hora de descansar!",
           message := s.config.msg_rest }])) ∧
    (¬ (s.config.work_minutes * 60 : ℚ) ≤ s.work_elapsed + d →
      tick s d = ({ s with work_elapsed := s.work_elapsed + d }, [])) := by
  obtain ⟨cfg, st, we, re, pe, rie, ii⟩ := s
  dsimp only at hs
  subst hs
  constructor
  · intro h
    simp only [tick, if_pos h]
  · intro h
    simp only [tick, if_neg h]

/-- C1 witness: the theorem applied at a concrete working state one second
short of the target, with delta 1, lands exactly on the threshold. -/
theorem tick_working_spec_witness :
    wkState.state = CycleState.working ∧ (0 : ℚ) ≤ 1 ∧
    tick wkState 1 = ({ wkState with
        state := CycleState.wait_rest
        work_elapsed := 0 },
      [{ kind := NotifKind.rest
         title := "¡Hora de descansar!"
         message := wkState.config.msg_rest }]) :=
  ⟨rfl, by norm_num,
    (tick_working_spec wkState 1 rfl (by norm_num)).1
      (by norm_num [wkState, Observer.init])⟩

/-- C10: from `wait_rest`, `tick delta` (for any delta) leaves the whole
coordinator state unchanged and emits no notification: only an edge event
or a config update can leave `wait_rest`. -/
theorem tick_wait_rest_frame (s : Observer) (d : ℚ)
    (hs : s.state = CycleState.wait_rest) :
    tick s d = (s, []) := by
  obtain ⟨cfg, st, we, re, pe, rie, ii⟩ := s
  dsimp only at hs
  subst hs
  rfl

/-- C10 witness: a wait_rest state with non-zero counters is untouched by a
tick, even one with a negative measured delta. -/
theorem tick_wait_rest_frame_witness :
    wrState.state = CycleState.wait_rest ∧ tick wrState (-2) = (wrState, []) :=
  ⟨rfl, tick_wait_rest_frame wrState (-2) rfl⟩

/-- C8: `snapshot` returns exactly the five fields
`state, work_elapsed, work_total, rest_elapsed, rest_total` computed from
the current coordinator state and config; being a pure function of the
state it mutates nothing, and two calls with no intervening mutation are
definitionally the same value. -/
theorem snapshot_spec (s : Observer) :
    snapshot s = { state := s.state
                   work_elapsed := s.work_elapsed
                   work_total := s.config.work_minutes * 60
                   rest_elapsed := s.rest_elapsed
                   rest_total := s.config.rest_minutes * 60 } ∧
    snapshot s = snapshot s :=
  ⟨rfl, rfl⟩

/-- psState: a paused state one second short of the default 5-minute
auto-rest threshold, with non-trivial counters. -/
def psState : Observer :=
  { Observer.init with
      state := CycleState.paused
      work_elapsed := 42
      pause_elapsed := 299
      rest_inactivity_elapsed := 4
      is_currently_inactive := true }

/-- rsState: a resting state one second short of the default 5-minute rest
target, with the user inactive. -/
def rsState : Observer :=
  { Observer.init with
      state := CycleState.resting
      rest_elapsed := 299
      rest_inactivity_elapsed := 10
      is_currently_inactive := true }

/-- cfgNv: a config update supplying a zero, a negative and a positive
duration (all to be clamped to a minimum of 1). -/
def cfgNv : ConfigUpdate :=
  { work_minutes := some 0, rest_minutes := some (-3), auto_rest_minutes := some 7 }

/-- C2: `onActivity` always clears the inactivity flag and
`rest_inactivity_elapsed`; from `idle`, `wait_rest` and `resting` it moves
to `working` with `work_elapsed = 0` (from `resting` also `rest_elapsed = 0`);
from `paused` it moves to `working` with `pause_elapsed = 0` and
`work_elapsed` untouched; from `working` it changes nothing else, so a
repeated call while `working` is the identity. -/
theorem on_activity_spec (s : Observer) :
    (onActivity s).is_currently_inactive = false ∧
    (onActivity s).rest_inactivity_elapsed = 0 ∧
    (s.state = CycleState.idle → onActivity s = { s with
        state := CycleState.working
        work_elapsed := 0
        is_currently_inactive := false
        rest_inactivity_elapsed := 0 }) ∧
    (s.state = CycleState.paused → onActivity s = { s with
        state := CycleState.working
        pause_elapsed := 0
        is_currently_inactive := false
        rest_inactivity_elapsed := 0 }) ∧
    (s.state = CycleState.wait_rest → onActivity s = { s with
        state := CycleState.working
        work_elapsed := 0
        is_currently_inactive := false
        rest_inactivity_elapsed := 0 }) ∧
    (s.state = CycleState.resting → onActivity s = { s with
        state := CycleState.working
        work_elapsed := 0
        rest_elapsed := 0
        is_currently_inactive := false
        rest_inactivity_elapsed := 0 }) ∧
    (s.state = CycleState.working → onActivity s = { s with
        is_currently_inactive := false
        rest_inactivity_elapsed := 0 }) ∧
    (s.state = CycleState.working → onActivity (onActivity s) = onActivity s) := by
  obtain ⟨cfg, st, we, re, pe, rie, ii⟩ := s
  cases st <;> simp [onActivity]

/-- C2 witness: an activity edge in a paused state resumes work, keeping
the accumulated `work_elapsed` and clearing the pause counter. -/
theorem on_activity_spec_witness :
    psState.state = CycleState.paused ∧ onActivity psState = { psState with
      state := CycleState.working
      pause_elapsed := 0
      is_currently_inactive := false
      rest_inactivity_elapsed := 0 } :=
  ⟨rfl, (on_activity_spec psState).2.2.2.1 rfl⟩

/-- C3: `onInactivity` always sets the inactivity flag; from `working` it
moves to `paused` with `pause_elapsed = 0` and `work_elapsed` untouched;
from `wait_rest` it moves to `resting` with `rest_elapsed = 0` and
`rest_inactivity_elapsed = 0`; from `idle`, `paused` and `resting` it
changes nothing else. -/
theorem on_inactivity_spec (s : Observer) :
    (onInactivity s).is_currently_inactive = true ∧
    (s.state = CycleState.working → onInactivity s = { s with
        state := CycleState.paused
        pause_elapsed := 0
        is_currently_inactive := true }) ∧
    (s.state = CycleState.wait_rest → onInactivity s = { s with
        state := CycleState.resting
        rest_elapsed := 0
        rest_inactivity_elapsed := 0
        is_currently_inactive := true }) ∧
    (s.state = CycleState.idle → onInactivity s = { s with
        is_currently_inactive := true }) ∧
    (s.state = CycleState.paused → onInactivity s = { s with
        is_currently_inactive := true }) ∧
    (s.state = CycleState.resting → onInactivity s = { s with
        is_currently_inactive := true }) := by
  obtain ⟨cfg, st, we, re, pe, rie, ii⟩ := s
  cases st <;> simp [onInactivity]

/-- C3 witness: an inactivity edge while waiting for rest starts the rest
phase with both rest counters cleared. -/
theorem on_inactivity_spec_witness :
    wrState.state = CycleState.wait_rest ∧ onInactivity wrState = { wrState with
      state := CycleState.resting
      rest_elapsed := 0
      rest_inactivity_elapsed := 0
      is_currently_inactive := true } :=
  ⟨rfl, (on_inactivity_spec wrState).2.2.1 rfl⟩

/-- C4: from `paused`, `tick delta` adds `delta` to `pause_elapsed`; when
the result reaches or exceeds `auto_rest_minutes * 60` the state becomes
`resting` directly (in one atomic step, never passing through `wait_rest`),
`work_elapsed`, `pause_elapsed` and `rest_elapsed` are reset to 0, and
exactly one auto-rest notification is emitted whose message is the fixed
`autoRestMessage`, independent of the active config and distinct from the
default rest message; its kind differs from the rest kind. Otherwise only
`pause_elapsed` changes and nothing is emitted. -/
theorem tick_paused_spec (s : Observer) (d : ℚ)
    (hs : s.state = CycleState.paused) (hd : 0 ≤ d) :
    ((s.config.auto_rest_minutes * 60 : ℚ) ≤ s.pause_elapsed + d →
      tick s d = ({ s with
          state := CycleState.resting
          work_elapsed := 0
          pause_elapsed := 0
          rest_elapsed := 0 },
        [{ kind := NotifKind.auto_rest, title := "Descanso automático",
           message := autoRestMessage }]) ∧
      NotifKind.auto_rest ≠ NotifKind.rest ∧
      autoRestMessage ≠ ({} : Config).msg_rest) ∧
    (¬ (s.config.auto_rest_minutes * 60 : ℚ) ≤ s.pause_elapsed + d →
      tick s d = ({ s with pause_elapsed := s.pause_elapsed + d }, [])) := by
  obtain ⟨cfg, st, we, re, pe, rie, ii⟩ := s
  dsimp only at hs
  subst hs
  constructor
  · intro h
    refine ⟨by simp only [tick, if_pos h], by simp, by decide⟩
  · intro h
    simp only [tick, if_neg h]

/-- C4 witness: the theorem applied at a concrete paused state one second
short of the auto-rest threshold, with delta 1. -/
theorem tick_paused_spec_witness :
    psState.state = CycleState.paused ∧ (0 : ℚ) ≤ 1 ∧
    tick psState 1 = ({ psState with
        state := CycleState.resting
        work_elapsed := 0
        pause_elapsed := 0
        rest_elapsed := 0 },
      [{ kind := NotifKind.auto_rest, title := "Descanso automático",
         message := autoRestMessage }]) :=
  ⟨rfl, by norm_num,
    ((tick_paused_spec psState 1 rfl (by norm_num)).1
      (by norm_num [psState, Observer.init])).1⟩

/-- C5: from `resting`, `tick delta` adds `delta` to `rest_elapsed`, and to
`rest_inactivity_elapsed` exactly when the inactivity flag is set; when the
resulting `rest_elapsed` reaches or exceeds `rest_minutes * 60` the state
becomes `idle`, `work_elapsed`, `rest_elapsed` and `rest_inactivity_elapsed`
are reset to 0 and exactly one resume-work notification carrying `msg_work`
is emitted — whatever the value of the inactivity flag. Otherwise nothing
is emitted. -/
theorem tick_resting_spec (s : Observer) (d : ℚ)
    (hs : s.state = CycleState.resting) (hd : 0 ≤ d) :
    ((s.config.rest_minutes * 60 : ℚ) ≤ s.rest_elapsed + d →
      tick s d = ({ s with
          state := CycleState.idle
          work_elapsed := 0
          rest_elapsed := 0
          rest_inactivity_elapsed := 0 },
        [{ kind := NotifKind.work, title := "¡Descanso terminado!",
           message := s.config.msg_work }])) ∧
    (¬ (s.config.rest_minutes * 60 : ℚ) ≤ s.rest_elapsed + d →
      tick s d = ({ s with
          rest_elapsed := s.rest_elapsed + d
          rest_inactivity_elapsed :=
            if s.is_currently_inactive
            then s.rest_inactivity_elapsed + d
            else s.rest_inactivity_elapsed }, [])) := by
  obtain ⟨cfg, st, we, re, pe, rie, ii⟩ := s
  dsimp only at hs
  subst hs
  constructor
  · intro h
    simp only [tick, if_pos h]
  · intro h
    simp only [tick, if_neg h]

/-- C5 witness: the theorem applied at a concrete resting state one second
short of the rest target, with the user inactive and delta 1. -/
theorem tick_resting_spec_witness :
    rsState.state = CycleState.resting ∧ (0 : ℚ) ≤ 1 ∧
    tick rsState 1 = ({ rsState with
        state := CycleState.idle
        work_elapsed := 0
        rest_elapsed := 0
        rest_inactivity_elapsed := 0 },
      [{ kind := NotifKind.work, title := "¡Descanso terminado!",
         message := rsState.config.msg_work }]) :=
  ⟨rfl, by norm_num,
    (tick_resting_spec rsState 1 rfl (by norm_num)).1
      (by norm_num [rsState, Observer.init])⟩

/-- C6: `applyConfig` clamps each supplied duration to a minimum of 1 and
afterwards the coordinator is in the initial shape: state `idle` with all
four counters zero, whatever the prior state was. -/
theorem apply_config_spec (s : Observer) (nv : ConfigUpdate) :
    (applyConfig s nv).state = CycleState.idle ∧
    (applyConfig s nv).work_elapsed = 0 ∧
    (applyConfig s nv).rest_elapsed = 0 ∧
    (applyConfig s nv).pause_elapsed = 0 ∧
    (applyConfig s nv).rest_inactivity_elapsed = 0 ∧
    (∀ v, nv.work_minutes = some v →
      (applyConfig s nv).config.work_minutes = max 1 v ∧
      1 ≤ (applyConfig s nv).config.work_minutes) ∧
    (∀ v, nv.rest_minutes = some v →
      (applyConfig s nv).config.rest_minutes = max 1 v ∧
      1 ≤ (applyConfig s nv).config.rest_minutes) ∧
    (∀ v, nv.auto_rest_minutes = some v →
      (applyConfig s nv).config.auto_rest_minutes = max 1 v ∧
      1 ≤ (applyConfig s nv).config.auto_rest_minutes) := by
  refine ⟨rfl, rfl, rfl, rfl, rfl, ?_, ?_, ?_⟩ <;>
    intro v h <;>
    simp [applyConfig, Config.update, h]

/-- C6 witness: applying a config update with a zero and a negative
duration to a non-idle state clamps both to 1 and resets the coordinator. -/
theorem apply_config_spec_witness :
    (applyConfig wrState cfgNv).state = CycleState.idle ∧
    (applyConfig wrState cfgNv).work_elapsed = 0 ∧
    cfgNv.work_minutes = some 0 ∧
    (applyConfig wrState cfgNv).config.work_minutes = max 1 0 ∧
    cfgNv.rest_minutes = some (-3) ∧
    (applyConfig wrState cfgNv).config.rest_minutes = max 1 (-3) :=
  ⟨(apply_config_spec wrState cfgNv).1,
   (apply_config_spec wrState cfgNv).2.1,
   rfl,
   ((apply_config_spec wrState cfgNv).2.2.2.2.2.1 0 rfl).1,
   rfl,
   ((apply_config_spec wrState cfgNv).2.2.2.2.2.2.1 (-3) rfl).1⟩

/-- One step of any entry point preserves non-negativity of the four
elapsed counters, provided a tick delta is non-negative. -/
lemma apply_preserves_nonneg (s : Observer) (o : Op) (hv : o.valid)
    (h1 : 0 ≤ s.work_elapsed) (h2 : 0 ≤ s.rest_elapsed)
    (h3 : 0 ≤ s.pause_elapsed) (h4 : 0 ≤ s.rest_inactivity_elapsed) :
    0 ≤ (Op.apply s o).work_elapsed ∧ 0 ≤ (Op.apply s o).rest_elapsed ∧
    0 ≤ (Op.apply s o).pause_elapsed ∧ 0 ≤ (Op.apply s o).rest_inactivity_elapsed := by
  cases o with
  | activity =>
      obtain ⟨cfg, st, we, re, pe, rie, ii⟩ := s
      cases st <;> simp_all [Op.apply, onActivity]
  | inactivity =>
      obtain ⟨cfg, st, we, re, pe, rie, ii⟩ := s
      cases st <;> simp_all [Op.apply, onInactivity]
  | config nv =>
      exact ⟨le_refl 0, le_refl 0, le_refl 0, le_refl 0⟩
  | tickOp d =>
      simp only [Op.valid] at hv
      obtain ⟨cfg, st, we, re, pe, rie, ii⟩ := s
      cases st with
      | idle => exact ⟨h1, h2, h3, h4⟩
      | working =>
          dsimp only [Op.apply, tick]
          split
          · exact ⟨le_refl 0, h2, h3, h4⟩
          · exact ⟨add_nonneg h1 hv, h2, h3, h4⟩
      | paused =>
          dsimp only [Op.apply, tick]
          split
          · exact ⟨le_refl 0, le_refl 0, le_refl 0, h4⟩
          · exact ⟨h1, h2, add_nonneg h3 hv, h4⟩
      | wait_rest => exact ⟨h1, h2, h3, h4⟩
      | resting =>
          dsimp only [Op.apply, tick]
          split
          · exact ⟨le_refl 0, le_refl 0, h3, le_refl 0⟩
          · refine ⟨h1, add_nonneg h2 hv, h3, ?_⟩
            dsimp only
            split
            · exact add_nonneg h4 hv
            · exact h4

/-- Folding a list of valid operations from a state with non-negative
counters keeps all counters non-negative. -/
lemma foldl_preserves_nonneg (ops : List Op) (s : Observer)
    (hv : ∀ o ∈ ops, o.valid)
    (h1 : 0 ≤ s.work_elapsed) (h2 : 0 ≤ s.rest_elapsed)
    (h3 : 0 ≤ s.pause_elapsed) (h4 : 0 ≤ s.rest_inactivity_elapsed) :
    0 ≤ (ops.foldl Op.apply s).work_elapsed ∧
    0 ≤ (ops.foldl Op.apply s).rest_elapsed ∧
    0 ≤ (ops.foldl Op.apply s).pause_elapsed ∧
    0 ≤ (ops.foldl Op.apply s).rest_inactivity_elapsed := by
  induction ops generalizing s with
  | nil => exact ⟨h1, h2, h3, h4⟩
  | cons o rest ih =>
      obtain ⟨g1, g2, g3, g4⟩ :=
        apply_preserves_nonneg s o (hv o (List.mem_cons_self o rest)) h1 h2 h3 h4
      exact ih (Op.apply s o) (fun x hx => hv x (List.mem_cons_of_mem o hx)) g1 g2 g3 g4

/-- c7Ops: a concrete valid run — an activity edge, a 2-second tick, an
inactivity edge. -/
def c7Ops : List Op := [Op.activity, Op.tickOp 2, Op.inactivity]

/-- C7: in every state reachable from the startup state by activity edges,
inactivity edges, config updates and ticks with non-negative delta, the
state field is one of the five cycle states and all four elapsed counters
are non-negative. -/
theorem reachable_invariant (ops : List Op) (hv : ∀ o ∈ ops, o.valid) :
    ((run ops).state = CycleState.idle ∨ (run ops).state = CycleState.working ∨
     (run ops).state = CycleState.paused ∨ (run ops).state = CycleState.wait_rest ∨
     (run ops).state = CycleState.resting) ∧
    0 ≤ (run ops).work_elapsed ∧ 0 ≤ (run ops).rest_elapsed ∧
    0 ≤ (run ops).pause_elapsed ∧ 0 ≤ (run ops).rest_inactivity_elapsed := by
  constructor
  · cases h : (run ops).state <;> simp
  · exact foldl_preserves_nonneg ops Observer.init hv
      (le_refl 0) (le_refl 0) (le_refl 0) (le_refl 0)

/-- C7 witness: the invariant instantiated on a concrete valid run. -/
theorem reachable_invariant_witness :
    (∀ o ∈ c7Ops, o.valid) ∧
    (((run c7Ops).state = CycleState.idle ∨ (run c7Ops).state = CycleState.working ∨
      (run c7Ops).state = CycleState.paused ∨ (run c7Ops).state = CycleState.wait_rest ∨
      (run c7Ops).state = CycleState.resting) ∧
     0 ≤ (run c7Ops).work_elapsed ∧ 0 ≤ (run c7Ops).rest_elapsed ∧
     0 ≤ (run c7Ops).pause_elapsed ∧ 0 ≤ (run c7Ops).rest_inactivity_elapsed) := by
  have hv : ∀ o ∈ c7Ops, o.valid := by decide
  exact ⟨hv, reachable_invariant c7Ops hv⟩

/-- One step of any entry point preserves the activity-flag correspondence:
`working` implies the flag is clear, `paused` implies it is set. -/
lemma apply_preserves_flag (s : Observer) (o : Op)
    (h1 : s.state = CycleState.working → s.is_currently_inactive = false)
    (h2 : s.state = CycleState.paused → s.is_currently_inactive = true) :
    ((Op.apply s o).state = CycleState.working →
      (Op.apply s o).is_currently_inactive = false) ∧
    ((Op.apply s o).state = CycleState.paused →
      (Op.apply s o).is_currently_inactive = true) := by
  cases o with
  | activity =>
      obtain ⟨cfg, st, we, re, pe, rie, ii⟩ := s
      cases st <;> simp_all [Op.apply, onActivity]
  | inactivity =>
      obtain ⟨cfg, st, we, re, pe, rie, ii⟩ := s
      cases st <;> simp_all [Op.apply, onInactivity]
  | config nv =>
      simp [Op.apply, applyConfig]
  | tickOp d =>
      obtain ⟨cfg, st, we, re, pe, rie, ii⟩ := s
      cases st with
      | idle => exact ⟨h1, h2⟩
      | wait_rest => exact ⟨h1, h2⟩
      | working =>
          dsimp only [Op.apply, tick]
          split <;> simp_all
      | paused =>
          dsimp only [Op.apply, tick]
          split <;> simp_all
      | resting =>
          dsimp only [Op.apply, tick]
          split
          · simp
          · dsimp only
            simp_all

/-- Folding any list of operations preserves the flag correspondence. -/
lemma foldl_preserves_flag (ops : List Op) (s : Observer)
    (h1 : s.state = CycleState.working → s.is_currently_inactive = false)
    (h2 : s.state = CycleState.paused → s.is_currently_inactive = true) :
    ((ops.foldl Op.apply s).state = CycleState.working →
      (ops.foldl Op.apply s).is_currently_inactive = false) ∧
    ((ops.foldl Op.apply s).state = CycleState.paused →
      (ops.foldl Op.apply s).is_currently_inactive = true) := by
  induction ops generalizing s with
  | nil => exact ⟨h1, h2⟩
  | cons o rest ih =>
      obtain ⟨g1, g2⟩ := apply_preserves_flag s o h1 h2
      exact ih (Op.apply s o) g1 g2

/-- C9: in every state reachable from the startup state by any sequence of
the four entry points, `working` implies the inactivity flag is clear and
`paused` implies it is set. -/
theorem reachable_flag_inv (ops : List Op) :
    ((run ops).state = CycleState.working →
      (run ops).is_currently_inactive = false) ∧
    ((run ops).state = CycleState.paused →
      (run ops).is_currently_inactive = true) :=
  foldl_preserves_flag ops Observer.init
    (fun h => by simp [Observer.init] at h) (fun h => by simp [Observer.init] at h)

/-- C9 witness: after one activity edge the coordinator is working and the
flag is clear, as the invariant demands. -/
theorem reachable_flag_inv_witness :
    (run [Op.activity]).state = CycleState.working ∧
    (run [Op.activity]).is_currently_inactive = false :=
  ⟨rfl, (reachable_flag_inv [Op.activity]).1 rfl⟩
